import Mathlib

/-!
Shallow embedding of the `node-easyrsa-wrapper` PKI lifecycle orchestrator
(`src/index.ts`, `src/utils.ts`).  Strings are modelled by `String`, the
filesystem by maps into `Option String` (`none` = missing file, ENOENT),
subprocess execution by an oracle `Env` mapping the built argument string to
the captured exit code / stdout / stderr triple.  JavaScript truthiness of
optional string parameters (`undefined` and `""` are falsy) is modelled by
`optTruthy`.
-/

/-- Substring test on the underlying character lists (JS `String.includes`). -/
def listIsPrefix : List Char → List Char → Bool
  | [], _ => true
  | _ :: _, [] => false
  | a :: as, b :: bs => a == b && listIsPrefix as bs

/-- Does `pat` occur as a contiguous infix of `hay`? -/
def listHasInfix (pat : List Char) : List Char → Bool
  | [] => listIsPrefix pat []
  | c :: t => listIsPrefix pat (c :: t) || listHasInfix pat t

/-- `containsSub hay pat` is JS `hay.includes(pat)`. -/
def containsSub (hay pat : String) : Bool :=
  listHasInfix pat.data hay.data

/-- JS truthiness of an optional string: `undefined` and `""` are falsy. -/
def optTruthy : Option String → Bool
  | none => false
  | some s => s != ""

/-- JS `if (value) list.push(f(value))` applied to an optional string. -/
def optList (o : Option String) (f : String → String) : List String :=
  match o with
  | none => []
  | some s => if s != "" then [f s] else []

/-- JS `Array.prototype.join(' ')`. -/
def joinSpace : List String → String
  | [] => ""
  | s :: rest =>
    match rest with
    | [] => s
    | _ :: _ => s ++ " " ++ joinSpace rest

/-- The five shell metacharacters of `escapeShell`'s regular expression
`/(["'$\x60\\])/g` (the backtick is written via its code point). -/
def isShellSpecial (c : Char) : Bool :=
  c == '"' || c == '\'' || c == '$' || c == Char.ofNat 96 || c == '\\'

/-- Global regex replace of each shell metacharacter `c` by `\c`
(JS `cmd.replace(/(["'$\x60\\])/g, '\\$1')`). -/
def jsReplaceEscape : List Char → List Char
  | [] => []
  | c :: cs =>
    if isShellSpecial c then '\\' :: c :: jsReplaceEscape cs
    else c :: jsReplaceEscape cs

/-- `escapeShell` from `src/utils.ts`: wrap in double quotes and
backslash-escape the embedded metacharacters. -/
def escapeShell (cmd : String) : String :=
  "\"" ++ String.mk (jsReplaceEscape cmd.data) ++ "\""

/-- The fixed 6-member digest enumeration (`Digest` in `src/index.ts`). -/
def Digest : List String :=
  ["md5", "sha1", "sha256", "sha224", "sha384", "sha512"]

/-- The fixed named-curve enumeration (`Curve` in `src/index.ts`). -/
def Curve : List String :=
  ["secp112r1", "secp112r2", "secp128r1", "secp128r2", "secp160k1",
   "secp160r1", "secp160r2", "secp192k1", "secp224k1", "secp224r1",
   "secp256k1", "secp384r1", "secp521r1", "prime192v1", "prime192v2",
   "prime192v3", "prime239v1", "prime239v2", "prime239v3", "prime256v1",
   "sect113r1", "sect113r2", "sect131r1", "sect131r2", "sect163k1",
   "sect163r1", "sect163r2", "sect193r1", "sect193r2", "sect233k1",
   "sect233r1", "sect239k1", "sect283k1", "sect283r1", "sect409k1",
   "sect409r1", "sect571k1", "sect571r1", "c2pnb163v1", "c2pnb163v2",
   "c2pnb163v3", "c2pnb176v1", "c2tnb191v1", "c2tnb191v2", "c2tnb191v3",
   "c2pnb208w1", "c2tnb239v1", "c2tnb239v2", "c2tnb239v3", "c2pnb272w1",
   "c2pnb304w1", "c2tnb359v1", "c2pnb368w1", "c2tnb431r1",
   "wap-wsg-idm-ecid-wtls1", "wap-wsg-idm-ecid-wtls3",
   "wap-wsg-idm-ecid-wtls4", "wap-wsg-idm-ecid-wtls5",
   "wap-wsg-idm-ecid-wtls6", "wap-wsg-idm-ecid-wtls7",
   "wap-wsg-idm-ecid-wtls8", "wap-wsg-idm-ecid-wtls9",
   "wap-wsg-idm-ecid-wtls10", "wap-wsg-idm-ecid-wtls11",
   "wap-wsg-idm-ecid-wtls12", "Oakley-EC2N-3", "Oakley-EC2N-4",
   "brainpoolP160r1", "brainpoolP160t1", "brainpoolP192r1",
   "brainpoolP192t1", "brainpoolP224r1", "brainpoolP224t1",
   "brainpoolP256r1", "brainpoolP256t1", "brainpoolP320r1",
   "brainpoolP320t1", "brainpoolP384r1", "brainpoolP384t1",
   "brainpoolP512r1", "brainpoolP512t1", "SM2"]

/-- The fixed 7-member revocation-reason enumeration (`RevokeReason`). -/
def RevokeReason : List String :=
  ["unspecified", "keyCompromise", "CACompromise", "affiliationChanged",
   "superseded", "cessationOfOperation", "certificateHold"]

/-- The constructor's digest validation: `args.digest && !Digest.includes(args.digest)`
(JS truthiness: an empty string skips the check). -/
def digestCheckFails (digest : Option String) : Bool :=
  match digest with
  | none => false
  | some d => d != "" && !(Digest.contains d)

/-- The constructor's curve validation: `args.curve && !Curve.includes(args.curve)`. -/
def curveCheckFails (curve : Option String) : Bool :=
  match curve with
  | none => false
  | some c => c != "" && !(Curve.contains c)

/-- The validation error the `EasyRSA` constructor throws, if any. -/
def constructorError (digest curve : Option String) : Option String :=
  if digestCheckFails digest then some "Digest not valid"
  else if curveCheckFails curve then some "Curve not valid"
  else none

/-- The error taxonomy of `src/errors` plus the two untyped shapes the code
produces: `rawStderr` models `rej(stderr)` (a plain string rejection, not an
`Error` instance) and `jsError` models a generic `new Error(msg)`. -/
inductive EasyRsaError where
  | caAlreadyExists
  | pkiDirNotFound
  | badCaPassword
  | caNotFound (msg : Option String)
  | certificateAlreadyExists
  | certificateNotFound
  | privateKeyIsEncrypted (msg : String)
  | jsError (msg : String)
  | rawStderr (text : String)
  deriving Repr, DecidableEq

/-- Captured outcome of one subprocess: exit code (`none` models the JS
`null` code of a signal-terminated process), full stdout, full stderr. -/
structure ExecResult where
  exitCode : Option Int
  stdout : String
  stderr : String

/-- JS truthiness of the `close` callback's `code` argument
(`null` and `0` are falsy). -/
def exitTruthy : Option Int → Bool
  | none => false
  | some c => c != 0

/-- The output classifier from the `close` handler of `EasyRSA.easyrsa`:
scans the captured stdout/stderr for the tool's diagnostic substrings,
first match wins, fallback is the raw stderr text. -/
def classifyFailure (stdout stderr : String) : EasyRsaError :=
  if containsSub stdout "Unable to create a CA as you already seem to have one set up." then
    .caAlreadyExists
  else if containsSub stdout "EASYRSA_PKI does not exist (perhaps you need to run init-pki)?" then
    .pkiDirNotFound
  else if containsSub stderr "Could not read CA private key from" &&
          containsSub stderr "maybe wrong password" then
    .badCaPassword
  else if containsSub stdout "Missing expected CA file" then
    .caNotFound (some "CA file not exists")
  else if containsSub stdout "Conflicting certificate exists at" then
    .certificateAlreadyExists
  else if containsSub stdout "Unable to revoke as no certificate was found" ||
          containsSub stdout "Missing certificate file" then
    .certificateNotFound
  else
    .rawStderr stderr

/-- Settlement of one `EasyRSA.easyrsa` promise: resolve with the captured
stdout when the exit code is falsy, otherwise reject with the classified
error. -/
def easyrsaResult (r : ExecResult) : Except EasyRsaError String :=
  if exitTruthy r.exitCode then .error (classifyFailure r.stdout r.stderr)
  else .ok r.stdout

/-- Subprocess oracle: what the external tool does for a given argument
string. -/
def Env : Type := String → ExecResult

/-- Run one easyrsa invocation against the oracle. -/
def runCmd (env : Env) (args : String) : Except EasyRsaError String :=
  easyrsaResult (env args)

/-- Map the caught value through the operation's `catch` block: a plain
string rejection (the raw stderr) is not an `Error` instance, so it is
replaced by the generic `new Error(fallbackMsg)`; everything else is
rethrown unchanged. -/
def wrapErr (fallbackMsg : String) : EasyRsaError → EasyRsaError
  | .rawStderr _ => .jsError fallbackMsg
  | e => e

/-- `EasyRSA.isPrivateKeyEncrypted`: read the key file (modelled as
`Option String`); `ENOENT` rejects with `CaNotFoundError()`, otherwise
resolve with whether the contents contain the `ENCRYPTED` marker. -/
def isPrivateKeyEncrypted (file : Option String) : Except EasyRsaError Bool :=
  match file with
  | none => .error (.caNotFound none)
  | some data => .ok (containsSub data "ENCRYPTED")

/-- The shared precondition of `createCert`, `revoke`, `renew` and `genCrl`:
when `caPassword` is falsy, inspect the CA key file and fail with
`PrivateKeyIsEncryptedError` when it carries the encryption marker. -/
def checkCaKey (caPassword : Option String) (caKeyFile : Option String) :
    Except EasyRsaError Unit :=
  if optTruthy caPassword then .ok ()
  else
    match isPrivateKeyEncrypted caKeyFile with
    | .error e => .error e
    | .ok true => .error (.privateKeyIsEncrypted "CA is encrypted")
    | .ok false => .ok ()

/-- One public operation's observable run: its settled result, the easyrsa
argument strings issued in order, and any console log lines. -/
structure OpRun (α : Type) where
  result : Except EasyRsaError α
  commands : List String
  logs : List String

/-- Argument string of `initPki` (`init-pki hard` / `init-pki soft`). -/
def initPkiCmd (force : Bool) : String :=
  "init-pki " ++ (if force then "hard" else "soft")

/-- Argument string of `buildCa`. -/
def buildCaCmd (commonName password : Option String) : String :=
  let easy_args := if optTruthy password then "" else "nopass"
  let opts :=
    optList commonName (fun cn => "--req-cn=" ++ escapeShell cn) ++
    optList password (fun pw =>
      "--passin=pass:" ++ escapeShell pw ++ " --passout=pass:" ++ escapeShell pw)
  joinSpace opts ++ " build-ca " ++ easy_args

/-- First argument string of `createCert` (`gen-req`). -/
def genReqCmd (name : String) (commonName password : Option String) : String :=
  let easy_args := if optTruthy password then "" else "nopass"
  let opts :=
    optList commonName (fun cn => "--req-cn=" ++ escapeShell cn) ++
    optList password (fun pw => "--passout=pass:" ++ escapeShell pw)
  joinSpace opts ++ " gen-req " ++ escapeShell name ++ " " ++ easy_args

/-- Second argument string of `createCert` (`sign-req`). -/
def signReqCmd (ctype name : String) (caPassword : Option String) : String :=
  let opts := optList caPassword (fun p => "--passin=pass:" ++ escapeShell p)
  joinSpace opts ++ " sign-req " ++ ctype ++ " " ++ escapeShell name

/-- Argument string of `revoke` (`opts` is a plain string there, so the
command always carries a leading space before `revoke` when no CA password
is given). -/
def revokeCmd (name reason : String) (caPassword : Option String) : String :=
  let opts :=
    match caPassword with
    | none => ""
    | some p => if p != "" then "--passin=pass:" ++ escapeShell p else ""
  opts ++ " revoke " ++ escapeShell name ++ " " ++ reason

/-- The shared option list of `renew`: note the common-name value is wrapped
in an extra pair of literal double quotes around the already quoted
`escapeShell` output, and the same list (including the common-name flag) is
reused for the `revoke-renewed` command. -/
def renewOpts (commonName password caPassword : Option String) : List String :=
  optList commonName (fun cn => "--req-cn=\"" ++ escapeShell cn ++ "\"") ++
  optList caPassword (fun p => "--passin=pass:" ++ escapeShell p) ++
  optList password (fun pw => "--passout=pass:" ++ escapeShell pw)

/-- First argument string of `renew` (`renew`). -/
def renewCmd1 (name : String) (commonName password caPassword : Option String) : String :=
  let easy_args := if optTruthy password then "" else "nopass"
  joinSpace (renewOpts commonName password caPassword) ++
    " renew " ++ escapeShell name ++ " " ++ easy_args

/-- Second argument string of `renew` (`revoke-renewed`). -/
def renewCmd2 (name : String) (commonName password caPassword : Option String) : String :=
  joinSpace (renewOpts commonName password caPassword) ++
    " revoke-renewed " ++ escapeShell name

/-- Argument string of `genCrl`. -/
def genCrlCmd (caPassword : Option String) : String :=
  let opts :=
    match caPassword with
    | none => ""
    | some p => if p != "" then "--passin=pass:" ++ escapeShell p else ""
  opts ++ " gen-crl"

/-- The spanish console message logged when the secondary `openvpn --genkey`
call fails. -/
def taKeyLogMsg : String := "no se ha podido generar la clave ta.key"

/-- `initPki`: the primary `init-pki` invocation decides the outcome; the
secondary shared-secret generation (`secondaryErr`, `some` = it failed) is
fired after a primary success and only ever logs. -/
def runInitPki (env : Env) (secondaryErr : Option String) (force : Bool) :
    OpRun String :=
  match runCmd env (initPkiCmd force) with
  | .error e => ⟨.error e, [initPkiCmd force], []⟩
  | .ok out =>
    ⟨.ok out, [initPkiCmd force],
     match secondaryErr with
     | some _ => [taKeyLogMsg]
     | none => []⟩

/-- `buildCa`: one command, no precondition check. -/
def runBuildCa (env : Env) (commonName password : Option String) : OpRun String :=
  match runCmd env (buildCaCmd commonName password) with
  | .error e => ⟨.error (wrapErr "Fail to build CA" e), [buildCaCmd commonName password], []⟩
  | .ok out => ⟨.ok out, [buildCaCmd commonName password], []⟩

/-- `createCert`: precondition check, then `gen-req`, then `sign-req`;
resolves with the stdout of `sign-req`. -/
def runCreateCert (env : Env) (caKeyFile : Option String) (ctype name : String)
    (commonName password caPassword : Option String) : OpRun String :=
  match checkCaKey caPassword caKeyFile with
  | .error e => ⟨.error (wrapErr "Fail to create certificate" e), [], []⟩
  | .ok _ =>
    match runCmd env (genReqCmd name commonName password) with
    | .error e =>
      ⟨.error (wrapErr "Fail to create certificate" e),
       [genReqCmd name commonName password], []⟩
    | .ok _ =>
      match runCmd env (signReqCmd ctype name caPassword) with
      | .error e =>
        ⟨.error (wrapErr "Fail to create certificate" e),
         [genReqCmd name commonName password, signReqCmd ctype name caPassword], []⟩
      | .ok out =>
        ⟨.ok out,
         [genReqCmd name commonName password, signReqCmd ctype name caPassword], []⟩

/-- `createServer` delegates to `createCert 'server'`. -/
def runCreateServer (env : Env) (caKeyFile : Option String) (name : String)
    (commonName password caPassword : Option String) : OpRun String :=
  runCreateCert env caKeyFile "server" name commonName password caPassword

/-- `createClient` delegates to `createCert 'client'`. -/
def runCreateClient (env : Env) (caKeyFile : Option String) (name : String)
    (commonName password caPassword : Option String) : OpRun String :=
  runCreateCert env caKeyFile "client" name commonName password caPassword

/-- `revoke`: reason validation, precondition check, one `revoke` command;
the async function has no `return`, so a successful run resolves with the
JS `undefined`, modelled as `none`. -/
def runRevoke (env : Env) (caKeyFile : Option String) (name reason : String)
    (caPassword : Option String) : OpRun (Option String) :=
  if !(RevokeReason.contains reason) then
    ⟨.error (wrapErr "Fail to create client" (.jsError "Reason is not valid")), [], []⟩
  else
    match checkCaKey caPassword caKeyFile with
    | .error e => ⟨.error (wrapErr "Fail to create client" e), [], []⟩
    | .ok _ =>
      match runCmd env (revokeCmd name reason caPassword) with
      | .error e =>
        ⟨.error (wrapErr "Fail to create client" e),
         [revokeCmd name reason caPassword], []⟩
      | .ok _ => ⟨.ok none, [revokeCmd name reason caPassword], []⟩

/-- `renew`: precondition check, then `renew`, then `revoke-renewed`;
resolves with the stdout of the first command. -/
def runRenew (env : Env) (caKeyFile : Option String) (name : String)
    (commonName password caPassword : Option String) : OpRun String :=
  match checkCaKey caPassword caKeyFile with
  | .error e => ⟨.error (wrapErr "Fail to renew certificate" e), [], []⟩
  | .ok _ =>
    match runCmd env (renewCmd1 name commonName password caPassword) with
    | .error e =>
      ⟨.error (wrapErr "Fail to renew certificate" e),
       [renewCmd1 name commonName password caPassword], []⟩
    | .ok out =>
      match runCmd env (renewCmd2 name commonName password caPassword) with
      | .error e =>
        ⟨.error (wrapErr "Fail to renew certificate" e),
         [renewCmd1 name commonName password caPassword,
          renewCmd2 name commonName password caPassword], []⟩
      | .ok _ =>
        ⟨.ok out,
         [renewCmd1 name commonName password caPassword,
          renewCmd2 name commonName password caPassword], []⟩

/-- `genCrl`: precondition check, one `gen-crl` command. -/
def runGenCrl (env : Env) (caKeyFile : Option String)
    (caPassword : Option String) : OpRun String :=
  match checkCaKey caPassword caKeyFile with
  | .error e => ⟨.error (wrapErr "Fail to create crl" e), [], []⟩
  | .ok _ =>
    match runCmd env (genCrlCmd caPassword) with
    | .error e => ⟨.error (wrapErr "Fail to create crl" e), [genCrlCmd caPassword], []⟩
    | .ok out => ⟨.ok out, [genCrlCmd caPassword], []⟩

/-- The resolved configuration (`EasyRSAArgs`). -/
structure EasyRSAArgs where
  pki : String
  days : Int
  certDays : Int
  digest : String
  algo : String
  keySize : Int
  curve : String
  deriving Repr, DecidableEq

/-- The orchestrator instance's fields (`easyrsaDir`, `options`). -/
structure EasyRSAState where
  easyrsaDir : String
  options : EasyRSAArgs
  deriving Repr, DecidableEq

/-- Filesystem oracle for the precondition checker's reads. -/
def FS : Type := String → Option String

/-- `join(this.options.pki, 'private', 'ca.key')` (POSIX join). -/
def caKeyPath (st : EasyRSAState) : String :=
  st.options.pki ++ "/private/ca.key"

/-- `initPki` at the instance level: the state is never assigned to. -/
def stInitPki (st : EasyRSAState) (env : Env) (secondaryErr : Option String)
    (force : Bool) : OpRun String × EasyRSAState :=
  (runInitPki env secondaryErr force, st)

/-- `buildCa` at the instance level. -/
def stBuildCa (st : EasyRSAState) (env : Env)
    (commonName password : Option String) : OpRun String × EasyRSAState :=
  (runBuildCa env commonName password, st)

/-- `createServer` at the instance level. -/
def stCreateServer (st : EasyRSAState) (env : Env) (fs : FS) (name : String)
    (commonName password caPassword : Option String) :
    OpRun String × EasyRSAState :=
  (runCreateServer env (fs (caKeyPath st)) name commonName password caPassword, st)

/-- `createClient` at the instance level. -/
def stCreateClient (st : EasyRSAState) (env : Env) (fs : FS) (name : String)
    (commonName password caPassword : Option String) :
    OpRun String × EasyRSAState :=
  (runCreateClient env (fs (caKeyPath st)) name commonName password caPassword, st)

/-- `revoke` at the instance level. -/
def stRevoke (st : EasyRSAState) (env : Env) (fs : FS) (name reason : String)
    (caPassword : Option String) : OpRun (Option String) × EasyRSAState :=
  (runRevoke env (fs (caKeyPath st)) name reason caPassword, st)

/-- `renew` at the instance level. -/
def stRenew (st : EasyRSAState) (env : Env) (fs : FS) (name : String)
    (commonName password caPassword : Option String) :
    OpRun String × EasyRSAState :=
  (runRenew env (fs (caKeyPath st)) name commonName password caPassword, st)

/-- `genCrl` at the instance level. -/
def stGenCrl (st : EasyRSAState) (env : Env) (fs : FS)
    (caPassword : Option String) : OpRun String × EasyRSAState :=
  (runGenCrl env (fs (caKeyPath st)) caPassword, st)

/-!
Spec-side formulations, used only to compare against the definitions above.
-/

/-- Modelled from the spec: a first-match-wins evaluation of an ordered list
of (predicate over stdout/stderr, typed error) rules, falling back to the
raw stderr text as an untyped error. -/
def firstMatch : List ((String → String → Bool) × EasyRsaError) →
    String → String → EasyRsaError
  | [], _, err => .rawStderr err
  | (p, e) :: rest, out, err =>
    if p out err then e else firstMatch rest out err

/-- The classification table with the exact diagnostic substrings the code
scans for, in the code's priority order. -/
def classificationTable : List ((String → String → Bool) × EasyRsaError) :=
  [(fun out _ =>
      containsSub out "Unable to create a CA as you already seem to have one set up.",
    .caAlreadyExists),
   (fun out _ =>
      containsSub out "EASYRSA_PKI does not exist (perhaps you need to run init-pki)?",
    .pkiDirNotFound),
   (fun _ err =>
      containsSub err "Could not read CA private key from" &&
        containsSub err "maybe wrong password",
    .badCaPassword),
   (fun out _ => containsSub out "Missing expected CA file",
    .caNotFound (some "CA file not exists")),
   (fun out _ => containsSub out "Conflicting certificate exists at",
    .certificateAlreadyExists),
   (fun out _ =>
      containsSub out "Unable to revoke as no certificate was found" ||
        containsSub out "Missing certificate file",
    .certificateNotFound)]

/-- Modelled from the spec: escape a value by inserting a backslash before
each embedded double quote, single quote, backtick, dollar sign and
backslash (stated as a fold, independent of the code's recursion). -/
def specEscaped (v : String) : String :=
  String.mk (v.data.foldr
    (fun c acc =>
      if c ∈ ['"', '\'', Char.ofNat 96, '$', '\\'] then '\\' :: c :: acc
      else c :: acc)
    [])

/-- Inputs of every command builder, bundled to state determinism. -/
structure BuildInputs where
  name : String
  reason : String
  ctype : String
  force : Bool
  commonName : Option String
  password : Option String
  caPassword : Option String
  deriving Repr, DecidableEq

/-- Every argument string the operations can hand to the subprocess invoker,
as a function of the builder inputs. -/
def allBuiltCommands (i : BuildInputs) : List String :=
  [initPkiCmd i.force,
   buildCaCmd i.commonName i.password,
   genReqCmd i.name i.commonName i.password,
   signReqCmd i.ctype i.name i.caPassword,
   revokeCmd i.name i.reason i.caPassword,
   renewCmd1 i.name i.commonName i.password i.caPassword,
   renewCmd2 i.name i.commonName i.password i.caPassword,
   genCrlCmd i.caPassword]

/-- An oracle under which every invocation exits 0 with stdout `tool output`. -/
def envOk : Env := fun _ => ⟨some 0, "tool output", ""⟩

/-- An oracle under which every invocation exits 0 with stdout `revoke ok`. -/
def envRevokeOk : Env := fun _ => ⟨some 0, "revoke ok", ""⟩

lemma easyrsaResult_ok {r : ExecResult} {out : String}
    (h : easyrsaResult r = .ok out) : out = r.stdout := by
  by_cases hc : exitTruthy r.exitCode = true
  · simp [easyrsaResult, hc] at h
  · simp [easyrsaResult, hc] at h
    exact h.symm

lemma shellSpecial_mem (c : Char) :
    isShellSpecial c = true ↔ c ∈ ['"', '\'', Char.ofNat 96, '$', '\\'] := by
  simp [isShellSpecial, List.mem_cons]
  constructor <;> intro h <;> tauto

lemma jsReplaceEscape_eq_foldr (l : List Char) :
    jsReplaceEscape l = l.foldr
      (fun c acc =>
        if c ∈ ['"', '\'', Char.ofNat 96, '$', '\\'] then '\\' :: c :: acc
        else c :: acc) [] := by
  induction l with
  | nil => rfl
  | cons c cs ih =>
    rw [jsReplaceEscape, List.foldr_cons, ← ih]
    by_cases hc : isShellSpecial c = true
    · rw [if_pos hc, if_pos ((shellSpecial_mem c).mp hc)]
    · rw [if_neg hc, if_neg (fun hmem => hc ((shellSpecial_mem c).mpr hmem))]

lemma mergePassin (x : String) :
    " " ++ ("--passin=pass:" ++ x) = " --passin=pass:" ++ x := by
  rw [← String.append_assoc]
  rfl

lemma mergePassout (x : String) :
    " " ++ ("--passout=pass:" ++ x) = " --passout=pass:" ++ x := by
  rw [← String.append_assoc]
  rfl

lemma mergeQuotePassin (x : String) :
    "\" " ++ ("--passin=pass:" ++ x) = "\" --passin=pass:" ++ x := by
  rw [← String.append_assoc]
  rfl

lemma classify_eq_firstMatch (out err : String) :
    classifyFailure out err = firstMatch classificationTable out err := by
  simp [classifyFailure, firstMatch, classificationTable]

/-- Claim C1, counterexample: the claim's abbreviated pattern
`already seem to have one set up` does not trigger the CA-already-exists
error — the code scans for the longer sentence
`Unable to create a CA as you already seem to have one set up.`, so a stdout
consisting exactly of the abbreviated pattern falls through to the raw
stderr fallback. -/
theorem classifier_abbreviated_pattern_fails :
    easyrsaResult ⟨some 1, "already seem to have one set up", "boom"⟩ =
      .error (.rawStderr "boom") ∧
    EasyRsaError.rawStderr "boom" ≠ .caAlreadyExists := by
  constructor
  · rfl
  · decide

/-- Claim C1 (amended): on a truthy (non-zero, non-null) exit code the
invoker rejects with the first-match-wins evaluation of the ordered rule
table whose patterns are the code's exact diagnostic sentences: stdout
`Unable to create a CA as you already seem to have one set up.` yields
CA-already-exists; stdout
`EASYRSA_PKI does not exist (perhaps you need to run init-pki)?` yields
PKI-directory-not-found; stderr containing both
`Could not read CA private key from` and `maybe wrong password` yields
bad-CA-password; stdout `Missing expected CA file` yields CA-not-found;
stdout `Conflicting certificate exists at` yields certificate-already-exists;
stdout `Unable to revoke as no certificate was found` or
`Missing certificate file` yields certificate-not-found; otherwise the raw
stderr text is surfaced as an untyped error. -/
theorem classifier_follows_exact_rule_table (r : ExecResult)
    (h : exitTruthy r.exitCode = true) :
    easyrsaResult r =
      .error (firstMatch classificationTable r.stdout r.stderr) := by
  simp [easyrsaResult, h, classify_eq_firstMatch]

/-- Claim C1, witness: the amended theorem applied at a concrete failing
invocation. -/
theorem classifier_follows_exact_rule_table_witness :
    exitTruthy (some 1) = true ∧
    easyrsaResult ⟨some 1, "", "boom"⟩ =
      .error (firstMatch classificationTable "" "boom") :=
  ⟨rfl, classifier_follows_exact_rule_table ⟨some 1, "", "boom"⟩ rfl⟩

/-- Claim C2, counterexample: an empty-string CA password is a supplied value
of the declared string type, yet — JS truthiness — the local file inspection
still runs: with the CA key file absent, `createCert` rejects with
CA-not-found before any subprocess, falsifying that a supplied `caPassword`
skips the inspection entirely. -/
theorem empty_caPassword_does_not_skip_inspection :
    (runCreateCert (fun _ => ⟨some 0, "", ""⟩) none "server" "client1"
        none none (some "")).result = .error (.caNotFound none) ∧
    (runCreateCert (fun _ => ⟨some 0, "", ""⟩) none "server" "client1"
        none none (some "")).commands = [] ∧
    (some "" : Option String) ≠ none := by
  exact ⟨rfl, rfl, by decide⟩

/-- Claim C2 (amended): for every CA-dependent operation (`createCert` —
hence `createServer`/`createClient` —, `revoke` with a valid reason, `renew`,
`genCrl`) invoked with a falsy `caPassword` (absent or empty): an absent CA
private-key file rejects with CA-not-found and a present file carrying the
`ENCRYPTED` marker rejects with private-key-is-encrypted, in both cases
before any subprocess is invoked; when a non-empty (truthy) `caPassword` is
supplied, the local file inspection is skipped entirely — the run does not
depend on the file at all. -/
theorem ca_key_precondition_check (env : Env) (file : Option String)
    (name reason ctype : String) (cn pw capw : Option String) :
    (optTruthy capw = false →
      (file = none →
        ((runCreateCert env file ctype name cn pw capw).result = .error (.caNotFound none) ∧
         (runCreateCert env file ctype name cn pw capw).commands = []) ∧
        ((runRenew env file name cn pw capw).result = .error (.caNotFound none) ∧
         (runRenew env file name cn pw capw).commands = []) ∧
        ((runGenCrl env file capw).result = .error (.caNotFound none) ∧
         (runGenCrl env file capw).commands = []) ∧
        (reason ∈ RevokeReason →
          (runRevoke env file name reason capw).result = .error (.caNotFound none) ∧
          (runRevoke env file name reason capw).commands = [])) ∧
      (∀ data, file = some data → containsSub data "ENCRYPTED" = true →
        ((runCreateCert env file ctype name cn pw capw).result =
            .error (.privateKeyIsEncrypted "CA is encrypted") ∧
         (runCreateCert env file ctype name cn pw capw).commands = []) ∧
        ((runRenew env file name cn pw capw).result =
            .error (.privateKeyIsEncrypted "CA is encrypted") ∧
         (runRenew env file name cn pw capw).commands = []) ∧
        ((runGenCrl env file capw).result =
            .error (.privateKeyIsEncrypted "CA is encrypted") ∧
         (runGenCrl env file capw).commands = []) ∧
        (reason ∈ RevokeReason →
          (runRevoke env file name reason capw).result =
            .error (.privateKeyIsEncrypted "CA is encrypted") ∧
          (runRevoke env file name reason capw).commands = []))) ∧
    (optTruthy capw = true →
      ∀ file',
        runCreateCert env file ctype name cn pw capw =
          runCreateCert env file' ctype name cn pw capw ∧
        runRevoke env file name reason capw = runRevoke env file' name reason capw ∧
        runRenew env file name cn pw capw = runRenew env file' name cn pw capw ∧
        runGenCrl env file capw = runGenCrl env file' capw) := by
  constructor
  · intro hcap
    constructor
    · intro hfile
      subst hfile
      have hchk : checkCaKey capw none = .error (.caNotFound none) := by
        simp [checkCaKey, hcap, isPrivateKeyEncrypted]
      refine ⟨⟨?_, ?_⟩, ⟨?_, ?_⟩, ⟨?_, ?_⟩, ?_⟩ <;>
        simp [runCreateCert, runRenew, runGenCrl, runRevoke, hchk, wrapErr]
      intro hmem
      simp [List.contains, List.elem_iff, hmem, hchk, wrapErr]
    · intro data hfile henc
      subst hfile
      have hchk : checkCaKey capw (some data) =
          .error (.privateKeyIsEncrypted "CA is encrypted") := by
        simp [checkCaKey, hcap, isPrivateKeyEncrypted, henc]
      refine ⟨⟨?_, ?_⟩, ⟨?_, ?_⟩, ⟨?_, ?_⟩, ?_⟩ <;>
        simp [runCreateCert, runRenew, runGenCrl, runRevoke, hchk, wrapErr]
      intro hmem
      simp [List.contains, List.elem_iff, hmem, hchk, wrapErr]
  · intro hcap file'
    have hchk : ∀ f, checkCaKey capw f = .ok () := by
      intro f; simp [checkCaKey, hcap]
    refine ⟨?_, ?_, ?_, ?_⟩ <;>
      simp [runCreateCert, runRevoke, runRenew, runGenCrl, hchk]

/-- Claim C2, witness: the amended theorem applied with an absent CA key
file, no CA password and a concrete oracle. -/
theorem ca_key_precondition_check_witness :
    optTruthy (none : Option String) = false ∧
    (runCreateCert envOk none "server" "client1" none none none).result =
      .error (.caNotFound none) :=
  ⟨rfl, (((ca_key_precondition_check envOk none "client1" "unspecified"
      "server" none none none).1 rfl).1 rfl).1.1⟩

/-- Claim C3, counterexample: in `renew` the common name is not embedded as
exactly the `escapeShell` form — the builder wraps the escaped value in an
extra pair of literal double quotes, so the claim's predicted command differs
from the built one at a concrete input. -/
theorem renew_common_name_double_quoted :
    renewCmd1 "client1" (some "Acme") none none ≠
      "--req-cn=" ++ escapeShell "Acme" ++ " renew " ++
        escapeShell "client1" ++ " nopass" ∧
    renewCmd1 "client1" (some "Acme") none none =
      "--req-cn=\"" ++ escapeShell "Acme" ++ "\" renew " ++
        escapeShell "client1" ++ " nopass" := by
  exact ⟨by decide, by decide⟩

/-- Claim C3 (amended): `escapeShell` is exactly the spec's policy — the
value wrapped in double quotes with each embedded double quote, single
quote, backtick, dollar sign and backslash prefixed by a backslash — and
every free-text value (common name, password, caPassword, target name)
embedded into a command by any operation appears as exactly `escapeShell`
of the value, except the common name in `renew`, whose embedded form is the
`escapeShell` output additionally wrapped in one more pair of literal
double quotes. -/
theorem escaping_policy_per_site :
    (∀ s, escapeShell s = "\"" ++ specEscaped s ++ "\"") ∧
    (∀ (cn pw capw name reason ctype : String),
      cn ≠ "" → pw ≠ "" → capw ≠ "" →
      buildCaCmd (some cn) (some pw) =
        "--req-cn=" ++ escapeShell cn ++ " --passin=pass:" ++
          escapeShell pw ++ " --passout=pass:" ++ escapeShell pw ++ " build-ca " ∧
      genReqCmd name (some cn) (some pw) =
        "--req-cn=" ++ escapeShell cn ++ " --passout=pass:" ++
          escapeShell pw ++ " gen-req " ++ escapeShell name ++ " " ∧
      signReqCmd ctype name (some capw) =
        "--passin=pass:" ++ escapeShell capw ++ " sign-req " ++ ctype ++ " " ++
          escapeShell name ∧
      revokeCmd name reason (some capw) =
        "--passin=pass:" ++ escapeShell capw ++ " revoke " ++ escapeShell name ++
          " " ++ reason ∧
      genCrlCmd (some capw) =
        "--passin=pass:" ++ escapeShell capw ++ " gen-crl" ∧
      renewCmd1 name (some cn) (some pw) (some capw) =
        "--req-cn=\"" ++ escapeShell cn ++ "\" --passin=pass:" ++
          escapeShell capw ++ " --passout=pass:" ++ escapeShell pw ++
          " renew " ++ escapeShell name ++ " " ∧
      renewCmd2 name (some cn) (some pw) (some capw) =
        "--req-cn=\"" ++ escapeShell cn ++ "\" --passin=pass:" ++
          escapeShell capw ++ " --passout=pass:" ++ escapeShell pw ++
          " revoke-renewed " ++ escapeShell name) := by
  constructor
  · intro s
    simp [escapeShell, specEscaped, jsReplaceEscape_eq_foldr]
  · intro cn pw capw name reason ctype hcn hpw hcapw
    refine ⟨?_, ?_, ?_, ?_, ?_, ?_, ?_⟩ <;>
      simp [buildCaCmd, genReqCmd, signReqCmd, revokeCmd, genCrlCmd, renewCmd1,
        renewCmd2, renewOpts, optList, optTruthy, joinSpace, hcn, hpw, hcapw,
        String.append_assoc, String.append_empty, mergePassin, mergePassout,
        mergeQuotePassin]

/-- Claim C3, witness: the amended theorem applied at concrete values. -/
theorem escaping_policy_per_site_witness :
    escapeShell "a" = "\"" ++ specEscaped "a" ++ "\"" ∧
    buildCaCmd (some "cn") (some "pw") =
      "--req-cn=" ++ escapeShell "cn" ++ " --passin=pass:" ++ escapeShell "pw" ++
        " --passout=pass:" ++ escapeShell "pw" ++ " build-ca " :=
  ⟨escaping_policy_per_site.1 "a",
   (escaping_policy_per_site.2 "cn" "pw" "cp" "n" "unspecified" "server"
      (by decide) (by decide) (by decide)).1⟩

/-- Claim C4, counterexample: the `revoke-renewed` command does not carry
only the pass-in/pass-out flags and the escaped target name — it reuses the
whole option list of the renew command, so supplying a common name changes
the second command, which then contains a `--req-cn=` flag. -/
theorem revoke_renewed_carries_req_cn_flag :
    renewCmd2 "client1" (some "Acme") none none ≠
      renewCmd2 "client1" none none none ∧
    containsSub (renewCmd2 "client1" (some "Acme") none none) "--req-cn=" = true := by
  exact ⟨by decide, by rfl⟩

/-- Claim C4 (amended): for every renew call that passes the precondition
check, a renew command is issued first; the revoke-renewed command — which
carries exactly the same option flags as the renew command (common-name,
pass-in, pass-out) followed by the escaped target name — is started only if
the first succeeded, in which case exactly those two commands are issued in
order; renew succeeds exactly when both commands succeed. -/
theorem renew_two_phase_pipeline (env : Env) (file : Option String)
    (name : String) (cn pw capw : Option String)
    (h : checkCaKey capw file = .ok ()) :
    (∃ opts, renewCmd1 name cn pw capw =
        joinSpace opts ++ " renew " ++ escapeShell name ++ " " ++
          (if optTruthy pw then "" else "nopass") ∧
      renewCmd2 name cn pw capw =
        joinSpace opts ++ " revoke-renewed " ++ escapeShell name) ∧
    (∀ e, runCmd env (renewCmd1 name cn pw capw) = .error e →
      (runRenew env file name cn pw capw).commands = [renewCmd1 name cn pw capw] ∧
      (runRenew env file name cn pw capw).result =
        .error (wrapErr "Fail to renew certificate" e)) ∧
    (∀ out, runCmd env (renewCmd1 name cn pw capw) = .ok out →
      (runRenew env file name cn pw capw).commands =
        [renewCmd1 name cn pw capw, renewCmd2 name cn pw capw] ∧
      (∀ e2, runCmd env (renewCmd2 name cn pw capw) = .error e2 →
        (runRenew env file name cn pw capw).result =
          .error (wrapErr "Fail to renew certificate" e2)) ∧
      (∀ out2, runCmd env (renewCmd2 name cn pw capw) = .ok out2 →
        (runRenew env file name cn pw capw).result = .ok out)) := by
  refine ⟨⟨renewOpts cn pw capw, rfl, rfl⟩, ?_, ?_⟩
  · intro e he
    simp [runRenew, h, he]
  · intro out hout
    refine ⟨?_, ?_, ?_⟩
    · cases h2 : runCmd env (renewCmd2 name cn pw capw) <;>
        simp [runRenew, h, hout, h2]
    · intro e2 he2; simp [runRenew, h, hout, he2]
    · intro out2 hout2; simp [runRenew, h, hout, hout2]

/-- Claim C4, witness: the amended theorem applied under an oracle where
both commands succeed. -/
theorem renew_two_phase_pipeline_witness :
    checkCaKey (some "p") (some "k") = .ok () ∧
    (runRenew envOk (some "k") "n" none none (some "p")).commands =
      [renewCmd1 "n" none none (some "p"), renewCmd2 "n" none none (some "p")] :=
  ⟨rfl, ((renew_two_phase_pipeline envOk (some "k") "n" none none (some "p")
      rfl).2.2 "tool output" rfl).1⟩

/-- Claim C5, counterexample: `revoke`'s async function never returns the
awaited stdout, so on a zero exit it resolves with the JS `undefined`
(modelled `none`), not with the captured stdout of its revoke command —
matching the repository's own test expecting `resolves.toBeUndefined()`. -/
theorem revoke_resolves_with_undefined :
    (runRevoke envRevokeOk (some "plain key") "client1" "unspecified"
        none).result = .ok none ∧
    (envRevokeOk (revokeCmd "client1" "unspecified" none)).stdout = "revoke ok" ∧
    (none : Option String) ≠ some "revoke ok" := by
  refine ⟨rfl, rfl, by decide⟩

/-- Claim C5 (amended): every public operation except `revoke`, when it
resolves, resolves with the captured stdout of one of its commands —
`initPki` and `buildCa` with their single command's stdout (and they do
resolve whenever that command's exit code is falsy), `createCert` with the
`sign-req` stdout, `renew` with the `renew` stdout, `genCrl` with the
`gen-crl` stdout; `revoke` instead resolves with no value (the JS
`undefined`), discarding the captured stdout. -/
theorem operations_resolve_with_stdout (env : Env) (file : Option String)
    (se : Option String) (force : Bool) (name reason ctype : String)
    (cn pw capw : Option String) :
    (∀ out, (runInitPki env se force).result = .ok out →
      out = (env (initPkiCmd force)).stdout) ∧
    (∀ out, (runBuildCa env cn pw).result = .ok out →
      out = (env (buildCaCmd cn pw)).stdout) ∧
    (∀ out, (runCreateCert env file ctype name cn pw capw).result = .ok out →
      out = (env (signReqCmd ctype name capw)).stdout) ∧
    (∀ out, (runRenew env file name cn pw capw).result = .ok out →
      out = (env (renewCmd1 name cn pw capw)).stdout) ∧
    (∀ out, (runGenCrl env file capw).result = .ok out →
      out = (env (genCrlCmd capw)).stdout) ∧
    (∀ v, (runRevoke env file name reason capw).result = .ok v → v = none) ∧
    (exitTruthy ((env (initPkiCmd force)).exitCode) = false →
      (runInitPki env se force).result = .ok (env (initPkiCmd force)).stdout) ∧
    (exitTruthy ((env (buildCaCmd cn pw)).exitCode) = false →
      (runBuildCa env cn pw).result = .ok (env (buildCaCmd cn pw)).stdout) := by
  refine ⟨?_, ?_, ?_, ?_, ?_, ?_, ?_, ?_⟩
  · intro out hout
    cases h1 : runCmd env (initPkiCmd force) with
    | error e => simp [runInitPki, h1] at hout
    | ok o =>
      simp [runInitPki, h1] at hout
      subst hout
      exact easyrsaResult_ok h1
  · intro out hout
    cases h1 : runCmd env (buildCaCmd cn pw) with
    | error e => simp [runBuildCa, h1] at hout
    | ok o =>
      simp [runBuildCa, h1] at hout
      subst hout
      exact easyrsaResult_ok h1
  · intro out hout
    cases h1 : checkCaKey capw file with
    | error e => simp [runCreateCert, h1] at hout
    | ok u =>
      cases h2 : runCmd env (genReqCmd name cn pw) with
      | error e => simp [runCreateCert, h1, h2] at hout
      | ok o2 =>
        cases h3 : runCmd env (signReqCmd ctype name capw) with
        | error e => simp [runCreateCert, h1, h2, h3] at hout
        | ok o3 =>
          simp [runCreateCert, h1, h2, h3] at hout
          subst hout
          exact easyrsaResult_ok h3
  · intro out hout
    cases h1 : checkCaKey capw file with
    | error e => simp [runRenew, h1] at hout
    | ok u =>
      cases h2 : runCmd env (renewCmd1 name cn pw capw) with
      | error e => simp [runRenew, h1, h2] at hout
      | ok o2 =>
        cases h3 : runCmd env (renewCmd2 name cn pw capw) with
        | error e => simp [runRenew, h1, h2, h3] at hout
        | ok o3 =>
          simp [runRenew, h1, h2, h3] at hout
          subst hout
          exact easyrsaResult_ok h2
  · intro out hout
    cases h1 : checkCaKey capw file with
    | error e => simp [runGenCrl, h1] at hout
    | ok u =>
      cases h2 : runCmd env (genCrlCmd capw) with
      | error e => simp [runGenCrl, h1, h2] at hout
      | ok o2 =>
        simp [runGenCrl, h1, h2] at hout
        subst hout
        exact easyrsaResult_ok h2
  · intro v hv
    by_cases hm : reason ∈ RevokeReason
    · cases h1 : checkCaKey capw file with
      | error e => simp [runRevoke, hm, h1] at hv
      | ok u =>
        cases h2 : runCmd env (revokeCmd name reason capw) with
        | error e => simp [runRevoke, hm, h1, h2] at hv
        | ok o2 =>
          simp [runRevoke, hm, h1, h2] at hv
          exact hv.symm
    · simp [runRevoke, hm] at hv
  · intro hz
    simp [runInitPki, runCmd, easyrsaResult, hz]
  · intro hz
    simp [runBuildCa, runCmd, easyrsaResult, hz]

/-- Claim C5, witness: the amended theorem applied to `buildCa` under a
concrete succeeding oracle. -/
theorem operations_resolve_with_stdout_witness :
    (runBuildCa envOk none none).result = .ok "tool output" ∧
    "tool output" = (envOk (buildCaCmd none none)).stdout :=
  ⟨rfl, (operations_resolve_with_stdout envOk none none true "n" "unspecified"
      "server" none none none).2.1 "tool output" rfl⟩

/-- Claim C6, counterexample: the empty string is outside the fixed 6-member
digest set, yet — being falsy in JS — it bypasses the constructor's
validation, so construction does not throw, falsifying the claim's "if"
direction. -/
theorem empty_digest_bypasses_validation :
    constructorError (some "") none = none ∧ "" ∉ Digest := by
  exact ⟨rfl, by decide⟩

/-- Claim C6 (amended): the constructor throws a validation error if and
only if the supplied digest is non-empty and outside the fixed 6-member
digest set, or the supplied curve is non-empty and outside the fixed
named-curve set; it succeeds for every member of those sets and when a
field is omitted. `revoke` rejects with the validation error for every
reason outside the fixed 7-member reason set, before the precondition check
(the outcome is independent of the CA key file) and before building any
command. -/
theorem enumerated_value_validation :
    (∀ d, d ∈ Digest → digestCheckFails (some d) = false) ∧
    (∀ c, c ∈ Curve → curveCheckFails (some c) = false) ∧
    (digestCheckFails none = false ∧ curveCheckFails none = false) ∧
    (∀ d c, constructorError d c = none ↔
        digestCheckFails d = false ∧ curveCheckFails c = false) ∧
    (∀ d, digestCheckFails (some d) = true ↔ d ≠ "" ∧ d ∉ Digest) ∧
    (∀ c, curveCheckFails (some c) = true ↔ c ≠ "" ∧ c ∉ Curve) ∧
    (∀ (env : Env) (file : Option String) (name reason : String)
        (capw : Option String),
      reason ∉ RevokeReason →
        (runRevoke env file name reason capw).result =
          .error (.jsError "Reason is not valid") ∧
        (runRevoke env file name reason capw).commands = []) := by
  refine ⟨?_, ?_, ⟨rfl, rfl⟩, ?_, ?_, ?_, ?_⟩
  · intro d hd; simp [digestCheckFails, List.contains, List.elem_iff, hd]
  · intro c hc; simp [curveCheckFails, List.contains, List.elem_iff, hc]
  · intro d c
    constructor
    · intro h
      by_cases h1 : digestCheckFails d <;> by_cases h2 : curveCheckFails c <;>
        simp_all [constructorError]
    · intro ⟨h1, h2⟩; simp [constructorError, h1, h2]
  · intro d; simp [digestCheckFails, List.contains, List.elem_iff]
  · intro c; simp [curveCheckFails, List.contains, List.elem_iff]
  · intro env file name reason capw hmem
    have : RevokeReason.contains reason = false := by
      simp [List.contains, List.elem_iff, hmem]
    simp [runRevoke, this, wrapErr, hmem]

/-- Claim C6, witness: the amended theorem applied to a valid digest member
and to a concrete invalid revocation reason. -/
theorem enumerated_value_validation_witness :
    digestCheckFails (some "md5") = false ∧
    (runRevoke envOk none "n" "badreason" none).commands = [] :=
  ⟨enumerated_value_validation.1 "md5" (by decide),
   (enumerated_value_validation.2.2.2.2.2.2 envOk none "n" "badreason" none
      (by decide)).2⟩

/-- Claim C7: the outcome of `initPki` is determined solely by the primary
`init-pki` subprocess — the result equals the settlement of that single
invocation, exactly one command is issued, and the secondary shared-secret
generation failure is only ever logged (one console line, emitted only when
the primary succeeded), never propagated. -/
theorem initPki_outcome_ignores_secondary (env : Env) (se : Option String)
    (force : Bool) :
    (runInitPki env se force).result = easyrsaResult (env (initPkiCmd force)) ∧
    (runInitPki env se force).commands = [initPkiCmd force] ∧
    (runInitPki env se force).logs =
      (match easyrsaResult (env (initPkiCmd force)), se with
       | .ok _, some _ => [taKeyLogMsg]
       | _, _ => []) := by
  cases h : easyrsaResult (env (initPkiCmd force)) with
  | error e => simp [runInitPki, runCmd, h]
  | ok out => cases se <;> simp [runInitPki, runCmd, h]

/-- Claim C8: command building is deterministic — the full list of argument
strings an operation can hand to the subprocess invoker is a pure function
of the builder inputs, so two calls with equal inputs build equal commands,
flag order included. -/
theorem command_building_deterministic (i j : BuildInputs) (h : i = j) :
    allBuiltCommands i = allBuiltCommands j := by rw [h]

/-- Claim C8, witness: the theorem applied at a concrete input pair. -/
theorem command_building_deterministic_witness :
    allBuiltCommands ⟨"n", "unspecified", "server", true, none, none, none⟩ =
      allBuiltCommands ⟨"n", "unspecified", "server", true, none, none, none⟩ :=
  command_building_deterministic _ _ rfl

/-- Claim C9: every public operation leaves the orchestrator instance — the
tool-directory path and every resolved options field — unchanged, whatever
the oracle and filesystem do: the source never assigns to `this.options` or
`this.easyrsaDir` after construction, so the embedded operations return the
state as-is. -/
theorem operations_preserve_state (st : EasyRSAState) (env : Env) (fs : FS)
    (se : Option String) (force : Bool) (name reason : String)
    (cn pw capw : Option String) :
    (stInitPki st env se force).2 = st ∧
    (stBuildCa st env cn pw).2 = st ∧
    (stCreateServer st env fs name cn pw capw).2 = st ∧
    (stCreateClient st env fs name cn pw capw).2 = st ∧
    (stRevoke st env fs name reason capw).2 = st ∧
    (stRenew st env fs name cn pw capw).2 = st ∧
    (stGenCrl st env fs capw).2 = st :=
  ⟨rfl, rfl, rfl, rfl, rfl, rfl, rfl⟩

/-- Claim C10: a `close` event with a `null` exit code (signal termination)
resolves with the captured stdout exactly like a zero exit code; output
classification and rejection happen only for non-zero numeric exit codes. -/
theorem null_exit_code_resolves_stdout (out err : String) (c : Int) :
    easyrsaResult ⟨none, out, err⟩ = .ok out ∧
    easyrsaResult ⟨some c, out, err⟩ =
      (if c = 0 then .ok out else .error (classifyFailure out err)) := by
  constructor
  · rfl
  · by_cases hc : c = 0 <;> simp [easyrsaResult, exitTruthy, hc]
